import Mathlib

/-!
Verification of the value-type descriptor model of this repository
(ElementCount, the static type catalog, EVT/MVT, and the structural-type
translation bridge), as exercised by
`src/unittests/CodeGen/ScalableVectorMVTsTest.cpp`.

The implementation headers (`llvm/CodeGen/ValueTypes.h`,
`llvm/Support/MachineValueType.h`, `llvm/Support/ScalableSize.h`,
`llvm/IR/DerivedTypes.h`) are not part of the source tree; only the unit
test that calls them is.  Every definition below whose doc comment starts
with `Modelled from the spec:` is therefore a faithful rendering of the
corresponding section of the specification, not a transcription of code.
-/

namespace VTModel

/-- Modelled from the spec: §3 ScalarKind — "an immutable enumerated value
identifying a primitive element type (signed/unsigned-agnostic integer of a
given bit width, or floating-point of a given bit width)".  The concrete
enumeration (missing `MachineValueType.h`) carries the integer widths
1..128 and the floating widths 16..128 including the 80-bit format. -/
inductive ScalarKind where
  | i1 | i8 | i16 | i32 | i64 | i128
  | f16 | f32 | f64 | f80 | f128
  deriving DecidableEq, Fintype, Repr

/-- Bit width of a scalar kind. -/
def ScalarKind.bitWidth : ScalarKind → Nat
  | .i1 => 1
  | .i8 => 8
  | .i16 => 16
  | .i32 => 32
  | .i64 => 64
  | .i128 => 128
  | .f16 => 16
  | .f32 => 32
  | .f64 => 64
  | .f80 => 80
  | .f128 => 128

/-- Modelled from the spec: §4.2 classification predicate `isInteger`. -/
def ScalarKind.isInteger : ScalarKind → Bool
  | .i1 | .i8 | .i16 | .i32 | .i64 | .i128 => true
  | _ => false

/-- Modelled from the spec: §4.2 classification predicate `isFloatingPoint`. -/
def ScalarKind.isFloatingPoint : ScalarKind → Bool
  | .f16 | .f32 | .f64 | .f80 | .f128 => true
  | _ => false

/-- The integer scalar kinds, in increasing width order. -/
def intKinds : List ScalarKind := [.i1, .i8, .i16, .i32, .i64, .i128]

/-- The floating-point scalar kinds, in increasing width order. -/
def fpKinds : List ScalarKind := [.f16, .f32, .f64, .f80, .f128]

/-- All scalar kinds of the catalog. -/
def allKinds : List ScalarKind := intKinds ++ fpKinds

/-- The integer scalar kind of exactly the given bit width, when one
exists (used by widening and by float-to-int conversion). -/
def integerKindOfWidth (w : Nat) : Option ScalarKind :=
  intKinds.find? fun k => k.bitWidth == w

/-- The floating-point scalar kind of exactly the given bit width, when
one exists (used by structural-type translation). -/
def fpKindOfWidth (w : Nat) : Option ScalarKind :=
  fpKinds.find? fun k => k.bitWidth == w

/-- Modelled from the spec: §3 ElementCount — "{minimum: non-negative
integer lane count, scalable: boolean}" (missing `ScalableSize.h`). -/
structure ElementCount where
  min : Nat
  scalable : Bool
  deriving DecidableEq, Repr

/-- Modelled from the spec: §7 error kinds, "all fail-fast and
non-retryable". -/
inductive TypeError where
  | divisionError
  | maxWidthError
  | invalidConversionError
  | unsupportedKindError
  | invalidTypeError
  deriving DecidableEq, Repr

/-- Modelled from the spec: §4.1 `multiply(count, factor)` →
ElementCount{minimum×factor, count.scalable}; total for factor ≥ 0. -/
def ElementCount.multiply (c : ElementCount) (factor : Nat) : ElementCount :=
  ⟨c.min * factor, c.scalable⟩

/-- Modelled from the spec: §4.1 `divide(count, factor)` →
ElementCount{minimum/factor, count.scalable}; fails with DivisionError if
`factor == 0` or `minimum % factor != 0`. -/
def ElementCount.divide (c : ElementCount) (factor : Nat) :
    Except TypeError ElementCount :=
  if factor == 0 || c.min % factor != 0 then .error .divisionError
  else .ok ⟨c.min / factor, c.scalable⟩

/-- A resolved (scalar kind, element count) pair: the value both a
CatalogEntry and an ExtendedDescriptor carry (spec §3).  `count = none`
describes a bare scalar type, `count = some c` a vector type. -/
structure Descriptor where
  kind : ScalarKind
  count : Option ElementCount
  deriving DecidableEq, Repr

/-- The lane counts pre-enumerated by the static catalog. -/
def laneCounts : List Nat := [1, 2, 4, 8, 16]

/-- The scalar kinds the catalog pre-enumerates vector combinations for
(the 80-bit and 128-bit floating formats have no catalog vectors). -/
def vectorElemKinds : List ScalarKind :=
  [.i1, .i8, .i16, .i32, .i64, .f16, .f32, .f64]

/-- The catalog's vector entries over one scalability flag. -/
def vectorEntries (sc : Bool) : List Descriptor :=
  (vectorElemKinds.map fun k =>
    laneCounts.map fun n => (⟨k, some ⟨n, sc⟩⟩ : Descriptor)).flatten

/-- Modelled from the spec: §3 TypeCatalog — "a static table pairing
(scalar kind × element count × scalability) combinations that are common
enough to be pre-enumerated", identified by "a small stable catalog id"
(here: the position in this list).  The table holds every bare scalar
kind plus the fixed and scalable vector combinations. -/
def catalog : List Descriptor :=
  (allKinds.map fun k => (⟨k, none⟩ : Descriptor))
    ++ vectorEntries false ++ vectorEntries true

/-- First-match search returning the position (the catalog id) of a
descriptor in a table, counting from `i`. -/
def lookupAux (d : Descriptor) : List Descriptor → Nat → Option Nat
  | [], _ => none
  | e :: rest, i => if e = d then some i else lookupAux d rest (i + 1)

/-- The catalog id of a descriptor, when the combination is
catalog-resident. -/
def catalogLookup (d : Descriptor) : Option Nat :=
  lookupAux d catalog 0

/-- Modelled from the spec: §3 TypingContext — the owner of the intern
table of ExtendedDescriptors.  Because the context "deduplicates (interns)
descriptors by value so that two requests for the same (scalar kind,
element count) yield descriptors that are representation-identical", an
extended descriptor reference is represented below by its resolved value;
the context itself carries no observable state for the properties proved
here and is kept as an explicit token. -/
structure TypingContext where

/-- Modelled from the spec: §3 EVT — "a discriminated value: either a
catalog id ... or a reference to an ExtendedDescriptor owned by a
TypingContext" (the reference represented by the interned value). -/
inductive EVT where
  | simple (id : Nat)
  | extended (kind : ScalarKind) (count : Option ElementCount)
  deriving DecidableEq, Repr

/-- The resolved (scalar kind, element count) pair of an EVT: a catalog id
resolves through the static table, an extended reference to the descriptor
it names.  An out-of-range catalog id resolves to nothing (invalid). -/
def EVT.resolve : EVT → Option Descriptor
  | .simple i => catalog[i]?
  | .extended k c => some ⟨k, c⟩

/-- Modelled from the spec: §3 EVT invariant — "equality of two EVTs is
defined purely by (scalar kind, element count) value, independent of which
representation branch produced them" (§9: "equality must compare resolved
(scalar kind, ElementCount) pairs, never the tag"). -/
def evtEq (a b : EVT) : Bool :=
  decide (a.resolve = b.resolve)

/-- The canonical EVT for a resolved pair: the catalog id when the
combination is catalog-resident, an interned extended descriptor
otherwise. -/
def mvtOf (k : ScalarKind) (c : Option ElementCount) : EVT :=
  match catalogLookup ⟨k, c⟩ with
  | some i => .simple i
  | none => .extended k c

/-- Modelled from the spec: §4.3 `getVectorVT` — the one canonical vector
constructor: "Looks up (scalarKind, count) in TypeCatalog first; on miss,
interns an ExtendedDescriptor in context."  (Interning is by value, so the
context token is not consulted further.) -/
def EVT.getVectorVT (_ctx : TypingContext) (k : ScalarKind)
    (c : ElementCount) : EVT :=
  mvtOf k (some c)

/-- Modelled from the spec: §4.3 — the (minimum, scalable-flag) entry
point; an "equivalent entry point into one canonical constructor". -/
def EVT.getVectorVTMinScalable (ctx : TypingContext) (k : ScalarKind)
    (min : Nat) (scalable : Bool) : EVT :=
  EVT.getVectorVT ctx k ⟨min, scalable⟩

/-- Modelled from the spec: §4.3 — the brace-style inline-pair entry
point, delegating to the canonical constructor. -/
def EVT.getVectorVTPair (ctx : TypingContext) (k : ScalarKind)
    (p : Nat × Bool) : EVT :=
  EVT.getVectorVT ctx k ⟨p.1, p.2⟩

/-- Modelled from the spec: §4.3 — the lane-count-only entry point, whose
scalability flag defaults to fixed-length. -/
def EVT.getVectorVTNumElts (ctx : TypingContext) (k : ScalarKind)
    (n : Nat) : EVT :=
  EVT.getVectorVT ctx k ⟨n, false⟩

/-- Modelled from the spec: §4.3 `isValid` — true for any table-resident
entry and any extended descriptor. -/
def EVT.isValid (e : EVT) : Bool :=
  e.resolve.isSome

/-- Modelled from the spec: §4.3 `isVector` — true iff this EVT was
constructed as a vector, i.e. carries an element count. -/
def EVT.isVector (e : EVT) : Bool :=
  match e.resolve with
  | some d => d.count.isSome
  | none => false

/-- Modelled from the spec: §4.3 `isScalableVector` — true iff
`count.scalable`. -/
def EVT.isScalableVector (e : EVT) : Bool :=
  match e.resolve with
  | some ⟨_, some c⟩ => c.scalable
  | _ => false

/-- Modelled from the spec: §4.3 `isInteger` — classification from the
resolved scalar kind. -/
def EVT.isInteger (e : EVT) : Bool :=
  match e.resolve with
  | some d => d.kind.isInteger
  | none => false

/-- Modelled from the spec: §4.3 `isFloatingPoint` — classification from
the resolved scalar kind. -/
def EVT.isFloatingPoint (e : EVT) : Bool :=
  match e.resolve with
  | some d => d.kind.isFloatingPoint
  | none => false

/-- Modelled from the spec: §4.3 `getScalarType()` — "the EVT for the
element's scalar kind alone (count removed)"; total, the identity on
anything without a resolved kind. -/
def EVT.getScalarType (e : EVT) : EVT :=
  match e.resolve with
  | some d => mvtOf d.kind none
  | none => e

/-- Modelled from the spec: §4.3 `getVectorElementCount()` — "returns the
stored ElementCount.  Fails (or is undefined) if called on a non-vector
EVT" (modelled as `none`). -/
def EVT.getVectorElementCount (e : EVT) : Option ElementCount :=
  match e.resolve with
  | some d => d.count
  | none => none

/-- Modelled from the spec: §4.3 `widenIntegerVectorElementType(context)`
— element kind replaced by the integer kind of exactly double bit width,
same ElementCount; fails with MaxWidthError if no wider integer kind
exists; requires `isInteger && isVector` (the violated precondition, a
programmer error, is modelled as `none`). -/
def EVT.widenIntegerVectorElementType (ctx : TypingContext) (e : EVT) :
    Option (Except TypeError EVT) :=
  match e.resolve with
  | some ⟨k, some c⟩ =>
    if k.isInteger then
      match integerKindOfWidth (2 * k.bitWidth) with
      | some k2 => some (.ok (EVT.getVectorVT ctx k2 c))
      | none => some (.error .maxWidthError)
    else none
  | _ => none

/-- Modelled from the spec: §4.3 `getHalfNumVectorElementsVT(context)` —
ElementCount{minimum/2, same scalability}, scalar kind unchanged; fails
with DivisionError if the minimum is odd; a non-vector argument violates
the precondition (modelled as `none`). -/
def EVT.getHalfNumVectorElementsVT (ctx : TypingContext) (e : EVT) :
    Option (Except TypeError EVT) :=
  match e.resolve with
  | some ⟨k, some c⟩ => some ((c.divide 2).map fun c2 => EVT.getVectorVT ctx k c2)
  | _ => none

/-- Modelled from the spec: §4.3 `changeTypeToInteger()` — the floating
scalar kind replaced by the integer kind of identical bit width, same
ElementCount; fails with InvalidConversionError if the input is not
floating-point or no equal-width integer kind exists. -/
def EVT.changeTypeToInteger (e : EVT) : Except TypeError EVT :=
  match e.resolve with
  | some ⟨k, c⟩ =>
    if k.isFloatingPoint then
      match integerKindOfWidth k.bitWidth with
      | some k2 => .ok (mvtOf k2 c)
      | none => .error .invalidConversionError
    else .error .invalidConversionError
  | none => .error .invalidConversionError

/-- Modelled from the spec: §6 — a structural scalar type "exposes: a
bit-width-classified kind (integer or floating-point) and a bit width". -/
inductive StructuralScalar where
  | intTy (width : Nat)
  | fpTy (width : Nat)
  deriving DecidableEq, Repr

/-- Modelled from the spec: §6 — a structural type is a scalar, or a
vector exposing "an element type (itself a structural scalar type), a
minimum element count, and a scalability flag". -/
inductive StructuralType where
  | scalar (s : StructuralScalar)
  | vector (elem : StructuralScalar) (min : Nat) (scalable : Bool)
  deriving DecidableEq, Repr

/-- The scalar kind representing a structural scalar type, when one
exists for its classification and bit width. -/
def structToKind : StructuralScalar → Option ScalarKind
  | .intTy w => integerKindOfWidth w
  | .fpTy w => fpKindOfWidth w

/-- The structural scalar type of a scalar kind. -/
def kindToStruct (k : ScalarKind) : StructuralScalar :=
  if k.isInteger then .intTy k.bitWidth else .fpTy k.bitWidth

/-- Modelled from the spec: §4.4 `toEVT(context, structuralType)` — the
EVT with identical scalar kind and ElementCount; fails with
InvalidTypeError if the structural element type or bit width has no
representable scalar kind.  (`EVT::getEVT` of the test.) -/
def toEVT (ctx : TypingContext) : StructuralType → Except TypeError EVT
  | .scalar s =>
    match structToKind s with
    | some k => .ok (mvtOf k none)
    | none => .error .invalidTypeError
  | .vector s min sc =>
    match structToKind s with
    | some k => .ok (EVT.getVectorVT ctx k ⟨min, sc⟩)
    | none => .error .invalidTypeError

/-- Modelled from the spec: §4.4 `toStructuralType(context, evt)` — the
inverse mapping, "tagged scalable/fixed per the EVT's
ElementCount.scalable, with matching element type and minimum count, or a
bare scalar structural type for non-vector EVTs".  (`getTypeForEVT` of the
test; `none` on an unresolvable EVT.) -/
def toStructuralType (_ctx : TypingContext) (e : EVT) :
    Option StructuralType :=
  match e.resolve with
  | some ⟨k, none⟩ => some (.scalar (kindToStruct k))
  | some ⟨k, some c⟩ => some (.vector (kindToStruct k) c.min c.scalable)
  | none => none

/-- Modelled from the spec: §4.3/§6 — the machine-type translation
`MVT::getVT`: the catalog-only counterpart of `toEVT`, defined exactly for
catalog-resident combinations (it cannot intern). -/
def MVT.getVT : StructuralType → Option EVT
  | .scalar s =>
    match structToKind s with
    | some k => (catalogLookup ⟨k, none⟩).map .simple
    | none => none
  | .vector s min sc =>
    match structToKind s with
    | some k => (catalogLookup ⟨k, some ⟨min, sc⟩⟩).map .simple
    | none => none

/-- Modelled from the spec: §4.4 — `EVT::getEVT`, the extended-type
translation of a structural type. -/
def EVT.getEVT (ctx : TypingContext) (t : StructuralType) :
    Except TypeError EVT :=
  toEVT ctx t

/-- The EVTs of the whole catalog, in table order. -/
def catalogEVTs : List EVT :=
  (List.range catalog.length).map EVT.simple

/-- Modelled from the spec: §4.2 — the predicate-filtered enumeration
`integer_scalable_vector_valuetypes()`: a fresh, finite, deterministic
sequence over the same static table on every call (a pure value here). -/
def integer_scalable_vector_valuetypes : List EVT :=
  catalogEVTs.filter fun e =>
    e.isInteger && e.isVector && e.isScalableVector

/-- Modelled from the spec: §4.2 — the predicate-filtered enumeration
`fp_scalable_vector_valuetypes()`. -/
def fp_scalable_vector_valuetypes : List EVT :=
  catalogEVTs.filter fun e =>
    e.isFloatingPoint && e.isVector && e.isScalableVector

/-- The catalog entry the test names `MVT::nxv4i64`. -/
def nxv4i64 : EVT := mvtOf .i64 (some ⟨4, true⟩)

/-- The catalog entry the test names `MVT::nxv1i64`. -/
def nxv1i64 : EVT := mvtOf .i64 (some ⟨1, true⟩)

/-- A fixed typing context used to instantiate concrete test values. -/
def ctx0 : TypingContext := ⟨⟩

/-! ## Foundational lemmas -/

/-- A successful first-match search points at the searched descriptor. -/
theorem lookupAux_sound (d : Descriptor) :
    ∀ (l : List Descriptor) (i j : Nat), lookupAux d l i = some j →
      i ≤ j ∧ l[j - i]? = some d := by
  intro l
  induction l with
  | nil => intro i j h; simp [lookupAux] at h
  | cons e rest ih =>
    intro i j h
    by_cases he : e = d
    · subst he
      simp [lookupAux] at h
      subst h
      simp
    · rw [lookupAux, if_neg he] at h
      obtain ⟨hle, hget⟩ := ih (i + 1) j h
      refine ⟨Nat.le_trans (Nat.le_succ i) hle, ?_⟩
      have hji : j - i = (j - (i + 1)) + 1 := by omega
      rw [hji]
      simpa using hget

/-- A catalog id found by lookup resolves back to the looked-up
descriptor. -/
theorem catalogLookup_sound {d : Descriptor} {i : Nat}
    (h : catalogLookup d = some i) : catalog[i]? = some d := by
  have := lookupAux_sound d catalog 0 i h
  simpa using this.2

/-- The canonical EVT of a pair resolves to that pair, through either
representation branch. -/
theorem resolve_mvtOf (k : ScalarKind) (c : Option ElementCount) :
    (mvtOf k c).resolve = some ⟨k, c⟩ := by
  unfold mvtOf
  cases h : catalogLookup ⟨k, c⟩ with
  | none => rfl
  | some i => simpa [EVT.resolve] using catalogLookup_sound h

/-- `getVectorVT` always resolves to the requested pair. -/
theorem resolve_getVectorVT (ctx : TypingContext) (k : ScalarKind)
    (c : ElementCount) :
    (EVT.getVectorVT ctx k c).resolve = some ⟨k, some c⟩ :=
  resolve_mvtOf k (some c)

/-- EVT equality holds exactly when the resolved pairs coincide. -/
theorem evtEq_true_iff (a b : EVT) :
    evtEq a b = true ↔ a.resolve = b.resolve := by
  unfold evtEq
  exact decide_eq_true_iff

/-- A found integer kind is an integer of exactly the requested width. -/
theorem integerKindOfWidth_spec {w : Nat} {k : ScalarKind}
    (h : integerKindOfWidth w = some k) :
    k.isInteger = true ∧ k.bitWidth = w := by
  have h2 : intKinds.find? (fun k2 => k2.bitWidth == w) = some k := h
  have hmem : k ∈ intKinds := List.mem_of_find?_eq_some h2
  have hp := List.find?_some h2
  simp at hp
  have hint : ∀ k2 ∈ intKinds, k2.isInteger = true := by decide
  exact ⟨hint k hmem, hp⟩

/-- A found floating kind is floating-point, not integer, of exactly the
requested width. -/
theorem fpKindOfWidth_spec {w : Nat} {k : ScalarKind}
    (h : fpKindOfWidth w = some k) :
    k.isFloatingPoint = true ∧ k.isInteger = false ∧ k.bitWidth = w := by
  have h2 : fpKinds.find? (fun k2 => k2.bitWidth == w) = some k := h
  have hmem : k ∈ fpKinds := List.mem_of_find?_eq_some h2
  have hp := List.find?_some h2
  simp at hp
  have hfp : ∀ k2 ∈ fpKinds, k2.isFloatingPoint = true ∧ k2.isInteger = false := by
    decide
  exact ⟨(hfp k hmem).1, (hfp k hmem).2, hp⟩

/-- Translating a kind's structural scalar type recovers the kind. -/
theorem structToKind_kindToStruct (k : ScalarKind) :
    structToKind (kindToStruct k) = some k := by
  revert k; decide

/-- A representable structural scalar type is recovered from its kind. -/
theorem kindToStruct_structToKind {s : StructuralScalar} {k : ScalarKind}
    (h : structToKind s = some k) : kindToStruct k = s := by
  cases s with
  | intTy w =>
    obtain ⟨hint, hw⟩ := integerKindOfWidth_spec h
    simp [kindToStruct, hint, hw]
  | fpTy w =>
    obtain ⟨_, hint, hw⟩ := fpKindOfWidth_spec h
    simp [kindToStruct, hint, hw]

/-- Every scalar kind's bare-scalar descriptor is catalog-resident. -/
theorem scalar_in_catalog (k : ScalarKind) :
    (catalogLookup ⟨k, none⟩).isSome = true := by
  revert k; decide

/-- `divide` succeeds exactly on a nonzero, exactly dividing factor. -/
theorem divide_ok {c : ElementCount} {f : Nat} (hf : f ≠ 0)
    (hm : c.min % f = 0) :
    c.divide f = .ok ⟨c.min / f, c.scalable⟩ := by
  rw [ElementCount.divide,
    if_neg (show ¬((f == 0 || c.min % f != 0) = true) by simp [hf, hm])]

/-! ## Claim theorems -/

/-- C1: two EVTs constructed by `getVectorVT` are equal exactly when their
(scalar kind, element count) pairs are value-equal; and an EVT whose pair
is catalog-resident equals the plain catalog value — through either the
catalog branch or the extended-descriptor branch. -/
theorem evt_equality_value_based (ctx : TypingContext) :
    (∀ (k1 k2 : ScalarKind) (c1 c2 : ElementCount),
        evtEq (EVT.getVectorVT ctx k1 c1) (EVT.getVectorVT ctx k2 c2) = true
          ↔ (k1 = k2 ∧ c1 = c2))
    ∧ (∀ (k : ScalarKind) (c : ElementCount) (i : Nat),
        catalog[i]? = some ⟨k, some c⟩ →
          evtEq (EVT.getVectorVT ctx k c) (EVT.simple i) = true
          ∧ evtEq (EVT.extended k (some c)) (EVT.simple i) = true) := by
  constructor
  · intro k1 k2 c1 c2
    rw [evtEq_true_iff, resolve_getVectorVT, resolve_getVectorVT]
    simp
  · intro k c i h
    constructor
    · rw [evtEq_true_iff, resolve_getVectorVT]
      simp [EVT.resolve, h]
    · rw [evtEq_true_iff]
      simp [EVT.resolve, h]

/-- C1 witness: the 4-lane scalable i32 vector, built through `getVectorVT`
or written as an extended descriptor, equals catalog entry 68. -/
theorem evt_equality_value_based_witness :
    evtEq (EVT.getVectorVT ctx0 .i32 ⟨4, true⟩) (EVT.simple 68) = true
    ∧ evtEq (EVT.extended .i32 (some ⟨4, true⟩)) (EVT.simple 68) = true :=
  (evt_equality_value_based ctx0).2 .i32 ⟨4, true⟩ 68 (by decide)

/-- C2: the (minimum, scalable-flag) and brace-style-pair entry points of
`getVectorVT` agree with the canonical ElementCount entry point, and an
in-catalog combination comes back as the catalog entry itself. -/
theorem construction_paths_agree (ctx : TypingContext) :
    (∀ (k : ScalarKind) (min : Nat) (sc : Bool),
        EVT.getVectorVTMinScalable ctx k min sc = EVT.getVectorVT ctx k ⟨min, sc⟩
        ∧ EVT.getVectorVTPair ctx k (min, sc) = EVT.getVectorVT ctx k ⟨min, sc⟩)
    ∧ (∀ (k : ScalarKind) (c : ElementCount) (i : Nat),
        catalogLookup ⟨k, some c⟩ = some i →
          EVT.getVectorVT ctx k c = EVT.simple i) := by
  refine ⟨fun k min sc => ⟨rfl, rfl⟩, fun k c i h => ?_⟩
  simp [EVT.getVectorVT, mvtOf, h]

/-- C2 witness: the 4-lane scalable i32 vector built from the explicit
(minimum, flag) pair is the catalog entry 68. -/
theorem construction_paths_agree_witness :
    EVT.getVectorVT ctx0 .i32 ⟨4, true⟩ = EVT.simple 68 :=
  (construction_paths_agree ctx0).2 .i32 ⟨4, true⟩ 68 (by decide)

/-- C3: structural-type translation is a round trip in both directions —
every resolvable EVT maps to a structural type that translates back to an
equal EVT; every representable structural vector type translates to an EVT
that maps back to the identical structural type; and translating the
element's structural type directly yields the vector EVT's scalar type. -/
theorem translation_round_trip (ctx : TypingContext) :
    (∀ (e : EVT) (d : Descriptor), e.resolve = some d →
        ∃ t, toStructuralType ctx e = some t
          ∧ ∃ e2, toEVT ctx t = .ok e2 ∧ evtEq e2 e = true)
    ∧ (∀ (s : StructuralScalar) (min : Nat) (sc : Bool) (k : ScalarKind),
        structToKind s = some k →
          toEVT ctx (.vector s min sc) = .ok (EVT.getVectorVT ctx k ⟨min, sc⟩)
          ∧ toStructuralType ctx (EVT.getVectorVT ctx k ⟨min, sc⟩)
              = some (.vector s min sc)
          ∧ toEVT ctx (.scalar s)
              = .ok ((EVT.getVectorVT ctx k ⟨min, sc⟩).getScalarType)) := by
  constructor
  · intro e d hres
    obtain ⟨k, cnt⟩ := d
    cases cnt with
    | none =>
      refine ⟨.scalar (kindToStruct k), ?_, mvtOf k none, ?_, ?_⟩
      · simp [toStructuralType, hres]
      · simp [toEVT, structToKind_kindToStruct]
      · rw [evtEq_true_iff, resolve_mvtOf, hres]
    | some c =>
      refine ⟨.vector (kindToStruct k) c.min c.scalable, ?_,
        EVT.getVectorVT ctx k ⟨c.min, c.scalable⟩, ?_, ?_⟩
      · simp [toStructuralType, hres]
      · simp [toEVT, structToKind_kindToStruct]
      · rw [evtEq_true_iff, resolve_getVectorVT, hres]
  · intro s min sc k hk
    have hks := kindToStruct_structToKind hk
    refine ⟨?_, ?_, ?_⟩
    · simp [toEVT, hk]
    · simp [toStructuralType, resolve_getVectorVT, hks]
    · simp [toEVT, hk, EVT.getScalarType, resolve_getVectorVT, EVT.getVectorVT,
        resolve_mvtOf]

/-- C3 witness: the 8-lane scalable i64 vector (catalog entry 74) round
trips, and the 8-lane scalable i64 structural vector comes back
structurally identical. -/
theorem translation_round_trip_witness :
    (∃ t, toStructuralType ctx0 (EVT.simple 74) = some t
        ∧ ∃ e2, toEVT ctx0 t = .ok e2 ∧ evtEq e2 (EVT.simple 74) = true)
    ∧ toStructuralType ctx0 (EVT.getVectorVT ctx0 .i64 ⟨8, true⟩)
        = some (.vector (.intTy 64) 8 true) :=
  ⟨(translation_round_trip ctx0).1 (EVT.simple 74) ⟨.i64, some ⟨8, true⟩⟩
      (by decide),
    ((translation_round_trip ctx0).2 (.intTy 64) 8 true .i64 (by decide)).2.1⟩

/-- C4: reconstructing a vector EVT from a multiplied or exactly divided
element count equals constructing the target EVT directly, scalability is
preserved, and the test's {2,true}·2 and {2,true}/2 compositions over i64
land on the catalog entries nxv4i64 and nxv1i64. -/
theorem mul_div_composition (ctx : TypingContext) :
    (∀ (k : ScalarKind) (c : ElementCount) (f : Nat),
        EVT.getVectorVT ctx k (c.multiply f)
            = EVT.getVectorVT ctx k ⟨c.min * f, c.scalable⟩
        ∧ (c.multiply f).scalable = c.scalable)
    ∧ (∀ (k : ScalarKind) (c : ElementCount) (f : Nat) (r : ElementCount),
        c.divide f = .ok r →
          EVT.getVectorVT ctx k r
              = EVT.getVectorVT ctx k ⟨c.min / f, c.scalable⟩
          ∧ r.scalable = c.scalable)
    ∧ EVT.getVectorVT ctx .i64 (ElementCount.multiply ⟨2, true⟩ 2) = nxv4i64
    ∧ ElementCount.divide ⟨2, true⟩ 2 = .ok ⟨1, true⟩
    ∧ EVT.getVectorVT ctx .i64 ⟨1, true⟩ = nxv1i64 := by
  refine ⟨fun k c f => ⟨rfl, rfl⟩, ?_, rfl, rfl, rfl⟩
  intro k c f r h
  rw [ElementCount.divide] at h
  split at h
  · simp at h
  · simp only [Except.ok.injEq] at h
    subst h
    exact ⟨rfl, rfl⟩

/-- C4 witness: dividing {4,true} by 2 and rebuilding over i32 equals the
direct 2-lane construction. -/
theorem mul_div_composition_witness :
    EVT.getVectorVT ctx0 .i32 ⟨2, true⟩
        = EVT.getVectorVT ctx0 .i32 ⟨4 / 2, true⟩ :=
  ((mul_div_composition ctx0).2.1 .i32 ⟨4, true⟩ 2 ⟨2, true⟩ rfl).1

/-- C5: widening an integer vector's element type yields the integer kind
of exactly double bit width with the ElementCount unchanged, fails with
MaxWidthError when no wider integer kind exists, and maps the 2-lane
scalable i32 vector to the 2-lane scalable i64 vector. -/
theorem widen_integer_vector (ctx : TypingContext) :
    (∀ (e : EVT) (k : ScalarKind) (c : ElementCount),
        e.resolve = some ⟨k, some c⟩ → k.isInteger = true →
          (∀ k2, integerKindOfWidth (2 * k.bitWidth) = some k2 →
              e.widenIntegerVectorElementType ctx
                  = some (.ok (EVT.getVectorVT ctx k2 c))
              ∧ k2.isInteger = true
              ∧ k2.bitWidth = 2 * k.bitWidth
              ∧ (EVT.getVectorVT ctx k2 c).getVectorElementCount = some c)
          ∧ (integerKindOfWidth (2 * k.bitWidth) = none →
              e.widenIntegerVectorElementType ctx
                  = some (.error .maxWidthError)))
    ∧ (EVT.getVectorVT ctx .i32 ⟨2, true⟩).widenIntegerVectorElementType ctx
        = some (.ok (EVT.getVectorVT ctx .i64 ⟨2, true⟩)) := by
  refine ⟨?_, rfl⟩
  intro e k c hres hint
  constructor
  · intro k2 hk2
    obtain ⟨h1, h2⟩ := integerKindOfWidth_spec hk2
    refine ⟨?_, h1, h2, ?_⟩
    · simp [EVT.widenIntegerVectorElementType, hres, hint, hk2]
    · simp [EVT.getVectorElementCount, resolve_getVectorVT]
  · intro hk2
    simp [EVT.widenIntegerVectorElementType, hres, hint, hk2]

/-- C5 witness: widening the 2-lane scalable i32 vector in place, and the
MaxWidthError on a 2-lane scalable i128 vector (no 256-bit integer
kind). -/
theorem widen_integer_vector_witness :
    (EVT.getVectorVT ctx0 .i32 ⟨2, true⟩).widenIntegerVectorElementType ctx0
        = some (.ok (EVT.getVectorVT ctx0 .i64 ⟨2, true⟩))
    ∧ (EVT.extended .i128 (some ⟨2, true⟩)).widenIntegerVectorElementType ctx0
        = some (.error .maxWidthError) :=
  ⟨((widen_integer_vector ctx0).1 (EVT.getVectorVT ctx0 .i32 ⟨2, true⟩)
        .i32 ⟨2, true⟩ rfl rfl).1 .i64 rfl |>.1,
    ((widen_integer_vector ctx0).1 (EVT.extended .i128 (some ⟨2, true⟩))
        .i128 ⟨2, true⟩ rfl rfl).2 rfl⟩

/-- C6: ElementCount division fails with DivisionError exactly when the
factor is zero or does not divide the minimum, otherwise returns the
exactly divided count with scalability preserved; halving a vector EVT
divides its minimum by two (DivisionError on an odd minimum) with the
scalar kind unchanged, and halves the 4-lane scalable i32 vector to the
2-lane one. -/
theorem division_and_halving (ctx : TypingContext) :
    (∀ (c : ElementCount) (f : Nat),
        (c.divide f = .error .divisionError ↔ (f = 0 ∨ c.min % f ≠ 0))
        ∧ (f ≠ 0 → c.min % f = 0 →
            c.divide f = .ok ⟨c.min / f, c.scalable⟩))
    ∧ ElementCount.divide ⟨5, true⟩ 2 = .error .divisionError
    ∧ (∀ (e : EVT) (k : ScalarKind) (c : ElementCount),
        e.resolve = some ⟨k, some c⟩ →
          (c.min % 2 = 0 →
            e.getHalfNumVectorElementsVT ctx
              = some (.ok (EVT.getVectorVT ctx k ⟨c.min / 2, c.scalable⟩)))
          ∧ (c.min % 2 = 1 →
            e.getHalfNumVectorElementsVT ctx
              = some (.error .divisionError)))
    ∧ (EVT.getVectorVT ctx .i32 ⟨4, true⟩).getHalfNumVectorElementsVT ctx
        = some (.ok (EVT.getVectorVT ctx .i32 ⟨2, true⟩)) := by
  refine ⟨?_, rfl, ?_, rfl⟩
  · intro c f
    constructor
    · rw [ElementCount.divide]
      split
      case isTrue h => exact iff_of_true rfl (by simpa using h)
      case isFalse h =>
        refine iff_of_false (by simp) fun hc => h (by simpa using hc)
    · intro hf hm
      exact divide_ok hf hm
  · intro e k c hres
    constructor
    · intro hev
      have hd := divide_ok (c := c) (by omega : (2 : Nat) ≠ 0) hev
      simp [EVT.getHalfNumVectorElementsVT, hres, hd, Except.map]
    · intro hodd
      have hd : c.divide 2 = .error .divisionError := by
        rw [ElementCount.divide, if_pos (by simp [hodd])]
      simp [EVT.getHalfNumVectorElementsVT, hres, hd, Except.map]

/-- C6 witness: {5,true}/2 fails, {4,true}/2 succeeds, and the 4-lane
scalable i32 vector halves to the 2-lane one via the general parts. -/
theorem division_and_halving_witness :
    ElementCount.divide ⟨4, true⟩ 2 = .ok ⟨2, true⟩
    ∧ (EVT.getVectorVT ctx0 .i32 ⟨4, true⟩).getHalfNumVectorElementsVT ctx0
        = some (.ok (EVT.getVectorVT ctx0 .i32 ⟨2, true⟩))
    ∧ (EVT.extended .i32 (some ⟨5, true⟩)).getHalfNumVectorElementsVT ctx0
        = some (.error .divisionError) :=
  ⟨((division_and_halving ctx0).1 ⟨4, true⟩ 2).2 (by omega) rfl,
    ((division_and_halving ctx0).2.2.1 (EVT.getVectorVT ctx0 .i32 ⟨4, true⟩)
        .i32 ⟨4, true⟩ rfl).1 rfl,
    ((division_and_halving ctx0).2.2.1 (EVT.extended .i32 (some ⟨5, true⟩))
        .i32 ⟨5, true⟩ rfl).2 rfl⟩

/-- C7: changing a floating-point EVT to integer swaps in the integer kind
of identical bit width with the ElementCount unchanged, fails with
InvalidConversionError on a non-floating input or when no equal-width
integer kind exists, and maps the 2-lane scalable f64 vector to the 2-lane
scalable i64 vector. -/
theorem change_type_to_integer (ctx : TypingContext) :
    (∀ (e : EVT) (k : ScalarKind) (cnt : Option ElementCount),
        e.resolve = some ⟨k, cnt⟩ → k.isFloatingPoint = true →
          (∀ k2, integerKindOfWidth k.bitWidth = some k2 →
              e.changeTypeToInteger = .ok (mvtOf k2 cnt)
              ∧ k2.isInteger = true
              ∧ k2.bitWidth = k.bitWidth
              ∧ (mvtOf k2 cnt).getVectorElementCount = cnt)
          ∧ (integerKindOfWidth k.bitWidth = none →
              e.changeTypeToInteger = .error .invalidConversionError))
    ∧ (∀ e : EVT, e.isFloatingPoint = false →
        e.changeTypeToInteger = .error .invalidConversionError)
    ∧ (EVT.getVectorVT ctx .f64 ⟨2, true⟩).changeTypeToInteger
        = .ok (EVT.getVectorVT ctx .i64 ⟨2, true⟩) := by
  refine ⟨?_, ?_, rfl⟩
  · intro e k cnt hres hfp
    constructor
    · intro k2 hk2
      obtain ⟨h1, h2⟩ := integerKindOfWidth_spec hk2
      refine ⟨?_, h1, h2, ?_⟩
      · simp [EVT.changeTypeToInteger, hres, hfp, hk2]
      · simp [EVT.getVectorElementCount, resolve_mvtOf]
    · intro hk2
      simp [EVT.changeTypeToInteger, hres, hfp, hk2]
  · intro e hfp
    cases hres : e.resolve with
    | none => simp [EVT.changeTypeToInteger, hres]
    | some d =>
      obtain ⟨k, cnt⟩ := d
      simp only [EVT.isFloatingPoint, hres] at hfp
      simp [EVT.changeTypeToInteger, hres, hfp]

/-- C7 witness: the 2-lane scalable f64 vector converts to the i64 one,
the bare f80 scalar fails for want of an 80-bit integer kind, and an
integer input fails outright. -/
theorem change_type_to_integer_witness :
    (EVT.getVectorVT ctx0 .f64 ⟨2, true⟩).changeTypeToInteger
        = .ok (mvtOf .i64 (some ⟨2, true⟩))
    ∧ (mvtOf .f80 none).changeTypeToInteger
        = .error .invalidConversionError
    ∧ (EVT.getVectorVT ctx0 .i32 ⟨4, true⟩).changeTypeToInteger
        = .error .invalidConversionError :=
  ⟨(((change_type_to_integer ctx0).1 (EVT.getVectorVT ctx0 .f64 ⟨2, true⟩)
        .f64 (some ⟨2, true⟩) rfl rfl).1 .i64 rfl).1,
    ((change_type_to_integer ctx0).1 (mvtOf .f80 none)
        .f80 none (resolve_mvtOf .f80 none) rfl).2 rfl,
    (change_type_to_integer ctx0).2.1 (EVT.getVectorVT ctx0 .i32 ⟨4, true⟩)
        rfl⟩

/-- C8: every entry of the integer scalable enumeration is valid, integer,
a vector, scalable, not floating-point, with a valid scalar type; every
entry of the floating enumeration is valid, floating-point, a vector,
scalable, not integer; both are finite sequences over the static table
(25 and 15 entries). -/
theorem catalog_enumerations :
    (integer_scalable_vector_valuetypes.all fun e =>
        e.isValid && e.isInteger && e.isVector && e.isScalableVector
          && !e.isFloatingPoint && e.getScalarType.isValid) = true
    ∧ (fp_scalable_vector_valuetypes.all fun e =>
        e.isValid && e.isFloatingPoint && e.isVector && e.isScalableVector
          && !e.isInteger) = true
    ∧ integer_scalable_vector_valuetypes.length = 25
    ∧ fp_scalable_vector_valuetypes.length = 15 := by
  refine ⟨by decide, by decide, by decide, by decide⟩

/-- C9: a fixed-length vector built through any entry point is never
scalable, `getVectorElementCount` returns exactly the stored pair, and the
test's 4-lane scalable and 8-lane fixed i32 vectors report {4,true} and
{8,false}. -/
theorem fixed_length_vectors (ctx : TypingContext) :
    (∀ (k : ScalarKind) (min : Nat),
        (EVT.getVectorVTMinScalable ctx k min false).isScalableVector = false
        ∧ (EVT.getVectorVTPair ctx k (min, false)).isScalableVector = false
        ∧ (EVT.getVectorVTNumElts ctx k min).isScalableVector = false)
    ∧ (∀ (k : ScalarKind) (c : ElementCount),
        (EVT.getVectorVT ctx k c).getVectorElementCount = some c)
    ∧ (EVT.getVectorVT ctx .i32 ⟨4, true⟩).getVectorElementCount
        = some ⟨4, true⟩
    ∧ (EVT.getVectorVTNumElts ctx .i32 8).getVectorElementCount
        = some ⟨8, false⟩ := by
  refine ⟨?_, ?_, rfl, rfl⟩
  · intro k min
    refine ⟨?_, ?_, ?_⟩ <;>
      simp [EVT.getVectorVTMinScalable, EVT.getVectorVTPair,
        EVT.getVectorVTNumElts, EVT.isScalableVector, resolve_getVectorVT]
  · intro k c
    simp [EVT.getVectorElementCount, resolve_getVectorVT]

/-- C10: on a catalog-resident structural vector type the machine-type
translation `MVT.getVT` and the extended translation `EVT.getEVT` agree:
both give the catalog entry, which reports the structural type's
scalability and element count, and whose scalar type is the direct
translation of the structural element type. -/
theorem mvt_evt_translation_agree (ctx : TypingContext) :
    ∀ (s : StructuralScalar) (min : Nat) (sc : Bool) (k : ScalarKind)
      (i : Nat),
      structToKind s = some k →
      catalogLookup ⟨k, some ⟨min, sc⟩⟩ = some i →
        MVT.getVT (.vector s min sc) = some (EVT.simple i)
        ∧ EVT.getEVT ctx (.vector s min sc) = .ok (EVT.simple i)
        ∧ (EVT.simple i).isScalableVector = sc
        ∧ (EVT.simple i).getVectorElementCount = some ⟨min, sc⟩
        ∧ MVT.getVT (.scalar s) = some ((EVT.simple i).getScalarType)
        ∧ EVT.getEVT ctx (.scalar s) = .ok ((EVT.simple i).getScalarType) := by
  intro s min sc k i hk hcat
  have hres : (EVT.simple i).resolve = some ⟨k, some ⟨min, sc⟩⟩ := by
    simpa [EVT.resolve] using catalogLookup_sound hcat
  obtain ⟨j, hj⟩ := Option.isSome_iff_exists.mp (scalar_in_catalog k)
  refine ⟨?_, ?_, ?_, ?_, ?_, ?_⟩
  · simp [MVT.getVT, hk, hcat]
  · simp [EVT.getEVT, toEVT, hk, EVT.getVectorVT, mvtOf, hcat]
  · simp [EVT.isScalableVector, hres]
  · simp [EVT.getVectorElementCount, hres]
  · simp [MVT.getVT, hk, hj, EVT.getScalarType, hres, mvtOf]
  · simp [EVT.getEVT, toEVT, hk, EVT.getScalarType, hres, mvtOf, hj]

/-- C10 witness: the 8-lane scalable i64 structural vector maps through
both translations onto catalog entry 74. -/
theorem mvt_evt_translation_agree_witness :
    MVT.getVT (.vector (.intTy 64) 8 true) = some (EVT.simple 74)
    ∧ EVT.getEVT ctx0 (.vector (.intTy 64) 8 true) = .ok (EVT.simple 74) :=
  ⟨(mvt_evt_translation_agree ctx0 (.intTy 64) 8 true .i64 74 rfl
      (by decide)).1,
    (mvt_evt_translation_agree ctx0 (.intTy 64) 8 true .i64 74 rfl
      (by decide)).2.1⟩

end VTModel
